import Mathlib

/-!
Verification of the utility core of `src/assin/t5_assin.py` (PTT5 ASSIN
fine-tuning script): the streaming Pearson accumulator (`PearsonCalculator`),
the architecture dispatch performed in `T5ASSIN.__init__`, the `NONLinearInput`
head used in "mlp" mode, and the numeric decoding loop of
`T5ASSIN.validation_step` for the "gen" architecture.

Machine floats produced by the script are modelled over `ℚ`, extended with the
special IEEE values `nan`/`inf` that the decoding path can produce (Python's
`float(str)` accepts "nan" and "inf" tokens, and `scipy.stats.pearsonr` can be
short-circuited to `float('nan')`).  The external `scipy.stats.pearsonr`
reduction and the `torch.sigmoid` nonlinearity are external collaborators: they
are kept abstract (a function parameter, and a parameter constrained to the
characteristic range property `0 < σ x < 1`, respectively).
-/

deriving instance DecidableEq for Except

namespace T5AssinModel

/-- Model of the Python float values reachable in this script: ordinary finite
values (as exact rationals), `nan`, and signed infinities. -/
inductive PyFloat where
  | nan : PyFloat
  | inf : PyFloat
  | ninf : PyFloat
  | num : ℚ → PyFloat
  deriving DecidableEq, Repr

/-- Model of a numpy array: its shape together with its (flattened) data.
`PearsonCalculator.__call__` only ever inspects `len(arr.shape)` and
concatenates the data, so this is all the structure the code touches. -/
structure NpArr where
  shape : List Nat
  data : List ℚ
  deriving DecidableEq, Repr

/-- A one-dimensional numpy array holding `xs`. -/
def arr1d (xs : List ℚ) : NpArr := ⟨[xs.length], xs⟩

/-- State of `PearsonCalculator`: the two running sequences `self.y_hat` and
`self.y` (t5_assin.py lines 42-45). -/
structure PearsonCalculator where
  y_hat : List ℚ
  y : List ℚ
  deriving DecidableEq, Repr

/-- The freshly constructed accumulator (`__init__`): both sequences empty. -/
def PearsonCalculator.empty : PearsonCalculator := ⟨[], []⟩

/-- `PearsonCalculator.__call__(y_hat, y)` (lines 47-52): assert both arrays
are one-dimensional, then concatenate each onto its running sequence.  An
`Except.error` is an `AssertionError`; it carries the state at the moment the
assertion fires, which is the unmodified state because both asserts precede
both appends. -/
def PearsonCalculator.call (s : PearsonCalculator) (y_hat y : NpArr) :
    Except PearsonCalculator PearsonCalculator :=
  if y_hat.shape.length = 1 then
    if y.shape.length = 1 then
      Except.ok ⟨s.y_hat ++ y_hat.data, s.y ++ y.data⟩
    else Except.error s
  else Except.error s

/-- `PearsonCalculator.calculate_pearson` (lines 54-64), parameterized by the
external `scipy.stats.pearsonr`-derived reduction `f` (the code keeps
`pearsonr(self.y, self.y_hat)[0]`).  Returns the result, whether the
not-enough-samples warning was logged, and the state left behind (both
sequences are always cleared before returning). -/
def PearsonCalculator.calculate_pearson (f : List ℚ → List ℚ → PyFloat)
    (s : PearsonCalculator) : PyFloat × Bool × PearsonCalculator :=
  if s.y.length < 2 then (PyFloat.nan, true, PearsonCalculator.empty)
  else (f s.y s.y_hat, false, PearsonCalculator.empty)

/-- Feeding one batch of 1-D prediction/target arrays to the accumulator, as
`validation_step` does; an assertion failure would leave the carried state. -/
def feedStep (s : PearsonCalculator) (p : List ℚ × List ℚ) : PearsonCalculator :=
  match PearsonCalculator.call s (arr1d p.1) (arr1d p.2) with
  | Except.ok s' => s'
  | Except.error s' => s'

/-- Feeding a whole list of batches to the accumulator, in order. -/
def feed (s : PearsonCalculator) (chunks : List (List ℚ × List ℚ)) :
    PearsonCalculator :=
  chunks.foldl feedStep s

/-- One abstract client operation on the accumulator: an `observe` call with
two arbitrary arrays, or a `compute_and_reset` call. -/
inductive AccOp where
  | obs (y_hat y : NpArr)
  | calcPearson
  deriving Repr

/-- Effect of one operation on the accumulator state.  A failed `observe`
(non-1-D argument) raises after leaving the state untouched, so the carried
error state is kept; `calculate_pearson` keeps the cleared state. -/
def runOp (f : List ℚ → List ℚ → PyFloat) (s : PearsonCalculator) :
    AccOp → PearsonCalculator
  | AccOp.obs a b =>
    match PearsonCalculator.call s a b with
    | Except.ok s' => s'
    | Except.error s' => s'
  | AccOp.calcPearson => (PearsonCalculator.calculate_pearson f s).2.2

/-- Effect of a whole sequence of operations, in order. -/
def runOps (f : List ℚ → List ℚ → PyFloat) (s : PearsonCalculator)
    (ops : List AccOp) : PearsonCalculator :=
  ops.foldl (runOp f) s

/-- A concrete stand-in reduction used to instantiate theorems that are
parametric in the external `pearsonr`. -/
def fDemo : List ℚ → List ℚ → PyFloat :=
  fun a b => PyFloat.num ((List.zipWith (· * ·) a b).sum)

/-! ## Numeric decoding in gen-mode validation

`T5ASSIN.validation_step` for `architecture == "gen"` (lines 199-212):
each decoded phrase is `split()` on whitespace, the tokens are scanned
left-to-right, the first one accepted by Python's `float` is clamped with
`if number > 5.0: number = 5.0 elif number < 1.0: number = 1.0` and written
over the `0.0` placeholder from `torch.zeros_like`; if no token parses, the
placeholder `0.0` survives. -/

/-- Python `str.split()` with no separator: split on runs of whitespace,
dropping empty pieces. -/
def pySplitAux : List Char → List Char → List (List Char)
  | [], acc => if acc = [] then [] else [acc.reverse]
  | c :: cs, acc =>
    if c.isWhitespace then
      if acc = [] then pySplitAux cs []
      else acc.reverse :: pySplitAux cs []
    else pySplitAux cs (c :: acc)

/-- All whitespace-separated tokens of a string, in order. -/
def pySplit (s : String) : List (List Char) := pySplitAux s.data []

/-- Value of a digit run, most significant first. -/
def natOfDigits (ds : List Char) : Nat :=
  ds.foldl (fun a c => 10 * a + (c.toNat - 48)) 0

/-- Optional exponent suffix of a Python float literal: empty, or
`e`/`E`, an optional sign and a nonempty digit run consuming the rest. -/
def parseExp : List Char → Option ℤ
  | [] => some 0
  | c :: r =>
    if c = 'e' ∨ c = 'E' then
      let sr : ℤ × List Char :=
        match r with
        | '+' :: t => (1, t)
        | '-' :: t => (-1, t)
        | t => (1, t)
      let ds := sr.2.takeWhile fun d => d.isDigit
      let rest := sr.2.dropWhile fun d => d.isDigit
      if ds = [] ∨ rest ≠ [] then none else some (sr.1 * natOfDigits ds)
    else none

/-- Unsigned decimal part of a Python float literal: digits with an optional
decimal point (at least one digit overall) and an optional exponent. -/
def parseDecimal (cs : List Char) : Option ℚ :=
  let ip := cs.takeWhile fun c => c.isDigit
  let r1 := cs.dropWhile fun c => c.isDigit
  match r1 with
  | '.' :: r2 =>
    let fp := r2.takeWhile fun c => c.isDigit
    let r3 := r2.dropWhile fun c => c.isDigit
    if ip = [] ∧ fp = [] then none
    else
      match parseExp r3 with
      | some e =>
        some (((natOfDigits ip : ℚ) + (natOfDigits fp : ℚ) / 10 ^ fp.length) * 10 ^ e)
      | none => none
  | _ =>
    if ip = [] then none
    else
      match parseExp r1 with
      | some e => some ((natOfDigits ip : ℚ) * 10 ^ e)
      | none => none

/-- Model of Python's builtin `float(str)` on a whitespace-free token
(underscore digit separators are not modelled): an optional sign followed by
`nan`, `inf`/`infinity` (case-insensitive) or a decimal literal.  `none`
models the `ValueError` swallowed by the loop. -/
def pyFloatOfToken (w : List Char) : Option PyFloat :=
  let sgn : Bool × List Char :=
    match w with
    | '+' :: r => (true, r)
    | '-' :: r => (false, r)
    | r => (true, r)
  let low := sgn.2.map Char.toLower
  if low = ['n', 'a', 'n'] then some PyFloat.nan
  else if low = ['i', 'n', 'f'] ∨ low = ['i', 'n', 'f', 'i', 'n', 'i', 't', 'y'] then
    some (if sgn.1 then PyFloat.inf else PyFloat.ninf)
  else
    match parseDecimal sgn.2 with
    | some q => some (PyFloat.num (if sgn.1 then q else -q))
    | none => none

/-- The comparison `number > 5.0` under IEEE semantics: false for `nan`. -/
def pyGtFive : PyFloat → Bool
  | PyFloat.nan => false
  | PyFloat.inf => true
  | PyFloat.ninf => false
  | PyFloat.num q => decide (5 < q)

/-- The comparison `number < 1.0` under IEEE semantics: false for `nan`. -/
def pyLtOne : PyFloat → Bool
  | PyFloat.nan => false
  | PyFloat.inf => false
  | PyFloat.ninf => true
  | PyFloat.num q => decide (q < 1)

/-- The clamping conditionals of lines 205-208, exactly as written:
`if number > 5.0: number = 5.0 elif number < 1.0: number = 1.0`. -/
def clampScore (v : PyFloat) : PyFloat :=
  if pyGtFive v then PyFloat.num 5
  else if pyLtOne v then PyFloat.num 1
  else v

/-- The token loop of lines 202-212: first parseable token wins (then
`break`), clamped; the `torch.zeros_like` placeholder `0.0` survives when no
token parses. -/
def firstScore : List (List Char) → PyFloat
  | [] => PyFloat.num 0
  | w :: ws =>
    match pyFloatOfToken w with
    | some v => clampScore v
    | none => firstScore ws

/-- Decoding one generated phrase to the numeric prediction written into
`y_hat[n]`. -/
def decodeNumber (s : String) : PyFloat := firstScore (pySplit s)

/-- Modelled from the spec's words (NumericDecoder contract, for the
refinement half of the decoding claim): split on whitespace, return the first
token parseable as a float, clamped; `0.0` when no token parses. -/
def decodeSpec (s : String) : PyFloat :=
  match (pySplit s).findSome? pyFloatOfToken with
  | some v => clampScore v
  | none => PyFloat.num 0

/-! ## Architecture dispatch at construction (`T5ASSIN.__init__`)

Lines 100-133 decide, from `hparams.architecture` and `hparams.nout`:
which backbone class is instantiated (lines 100-113, overwritten by
`NONLinearInput` for `"mlp"` at lines 117-119), whether a linear head exists
and its output width (lines 121-126, with the `nout != 1` assert for
`"categoric"` at line 123), and the loss (lines 128-131).  No branch rejects
an unrecognized architecture string. -/

/-- Which model class ends up in `self.t5`. -/
inductive Backbone where
  | t5ForConditionalGeneration : Backbone
  | t5Model : Backbone
  | nonLinearInput : Backbone
  deriving DecidableEq, Repr

/-- Which loss module ends up in `self.loss`. -/
inductive LossFn where
  | crossEntropyLoss : LossFn
  | mseLoss : LossFn
  deriving DecidableEq, Repr

/-- Construction-time failure: the bare `assert` on line 123. -/
inductive InitError where
  | assertionError : InitError
  deriving DecidableEq, Repr

/-- The architecture-dependent configuration produced by `__init__`:
backbone, output width of `self.linear` (`none` when no linear head is
created), and loss. -/
structure ModelConfig where
  backbone : Backbone
  linear_out : Option Int
  loss : LossFn
  deriving DecidableEq, Repr

/-- The architecture dispatch of `T5ASSIN.__init__` (lines 100-133).  Checkpoint
loading, tokenizer setup and size detection are orthogonal to the
architecture mode and are not modelled. -/
def t5assin_init (architecture : String) (nout : Int) :
    Except InitError ModelConfig :=
  let backbone :=
    if architecture = "mlp" then Backbone.nonLinearInput
    else if architecture = "gen" ∨ architecture = "categoric_gen" then
      Backbone.t5ForConditionalGeneration
    else Backbone.t5Model
  let loss :=
    if architecture = "categoric" ∨ architecture = "categoric_gen" then
      LossFn.crossEntropyLoss
    else LossFn.mseLoss
  if architecture = "gen" ∨ architecture = "categoric_gen" then
    Except.ok ⟨backbone, none, loss⟩
  else if architecture = "categoric" then
    if nout = 1 then Except.error InitError.assertionError
    else Except.ok ⟨backbone, some nout, loss⟩
  else Except.ok ⟨backbone, some 1, loss⟩

/-! ## `NONLinearInput` and the "mlp" forward pass

`NONLinearInput` (lines 67-75) is `Sequential(Linear(nin, nout), ReLU,
Dropout(0.5))` with forward `1 + net(x).sigmoid() * 4`; in "mlp" mode
`T5ASSIN.forward` computes `self.linear(self.t5(input_ids))` (line 162) with
`self.t5 = NONLinearInput(seq_len, D)` and `self.linear = Linear(D, 1)`.
Linear layers are over exact rationals; `Dropout` is modelled in eval mode,
where it is the identity (the range facts below do not depend on this);
`torch.sigmoid` is an abstract parameter `σ` constrained by its
characteristic range property. -/

/-- Dot product of a weight row with an input vector. -/
def dot (w x : List ℚ) : ℚ := (List.zipWith (· * ·) w x).sum

/-- Parameters of an `nn.Linear` layer: one weight row and one bias per
output feature. -/
structure LinearParams where
  weight : List (List ℚ)
  bias : List ℚ
  deriving DecidableEq, Repr

/-- `nn.Linear` forward: `W x + b`, one output per row. -/
def linearForward (p : LinearParams) (x : List ℚ) : List ℚ :=
  List.zipWith (fun row b => dot row x + b) p.weight p.bias

/-- `nn.ReLU` on one coordinate. -/
def relu (t : ℚ) : ℚ := max t 0

/-- The characteristic property of `torch.sigmoid` used by the code:
its values lie strictly between 0 and 1. -/
def SigmoidLike (σ : ℚ → ℚ) : Prop := ∀ t, 0 < σ t ∧ σ t < 1

/-- A concrete function with the `SigmoidLike` property (and agreeing with the
real sigmoid at 0), used to instantiate parametric theorems. -/
def sigmoidHalf : ℚ → ℚ := fun _ => (1 : ℚ) / 2

/-- The `self.net` of `NONLinearInput` (lines 70-72): Linear, ReLU, Dropout
(identity in eval mode). -/
def nonLinearNet (p : LinearParams) (x : List ℚ) : List ℚ :=
  (linearForward p x).map relu

/-- `NONLinearInput.forward` (line 75): `1 + net(x).sigmoid() * 4`,
coordinatewise. -/
def nonLinearForward (σ : ℚ → ℚ) (p : LinearParams) (x : List ℚ) : List ℚ :=
  (nonLinearNet p x).map fun t => 1 + σ t * 4

/-- `T5ASSIN.forward` in "mlp" mode (line 162):
`self.linear(self.t5(input_ids))` — the `Linear(D, 1)` head applied AFTER the
squashed `NONLinearInput` output. -/
def mlp_forward (σ : ℚ → ℚ) (p : LinearParams) (head : LinearParams)
    (x : List ℚ) : List ℚ :=
  linearForward head (nonLinearForward σ p x)

/-- Counterexample weights: `NONLinearInput` is `Linear(1, 1)` with weight 1
and bias 0. -/
def cexNLI : LinearParams := ⟨[[1]], [0]⟩

/-- Counterexample weights for the `Linear(D, 1)` head: weight 1, bias 10. -/
def cexHead : LinearParams := ⟨[[1]], [10]⟩

/-! ## Gen-mode validation epochs

In `validation_step` (lines 193-233) only the final `else` branch (the
similarity architectures) feeds `self.pearson_calculator`; the `"gen"`,
`"categoric_gen"` and `"categoric"` branches return without touching it.  In
`validation_epoch_end` (lines 244-268) every architecture outside
`{"categoric", "categoric_gen"}` reports
`self.pearson_calculator.calculate_pearson()`. -/

/-- Effect of one `validation_step` on the accumulator state, per
architecture: only the final `else` branch observes the batch. -/
def validation_step_accum (architecture : String) (s : PearsonCalculator)
    (y_hat original_number : List ℚ) : PearsonCalculator :=
  if architecture = "gen" then s
  else if architecture = "categoric_gen" then s
  else if architecture = "categoric" then s
  else feedStep s (y_hat, original_number)

/-- The Pearson value `validation_epoch_end` reports (none for the accuracy
architectures), together with the accumulator state it leaves behind. -/
def validation_epoch_end_pearson (architecture : String)
    (f : List ℚ → List ℚ → PyFloat) (s : PearsonCalculator) :
    Option PyFloat × PearsonCalculator :=
  if architecture = "categoric" ∨ architecture = "categoric_gen" then (none, s)
  else
    let r := PearsonCalculator.calculate_pearson f s
    (some r.1, r.2.2)

/-- One full validation epoch: every step, then the epoch-end reduction. -/
def run_val_epoch (architecture : String) (f : List ℚ → List ℚ → PyFloat)
    (s : PearsonCalculator) (batches : List (List ℚ × List ℚ)) :
    Option PyFloat × PearsonCalculator :=
  validation_epoch_end_pearson architecture f
    (batches.foldl (fun t b => validation_step_accum architecture t b.1 b.2) s)

/-- The reported Pearson metric of each epoch in a run of consecutive
validation epochs, threading the accumulator state. -/
def run_val_epochs (architecture : String) (f : List ℚ → List ℚ → PyFloat)
    (s : PearsonCalculator) :
    List (List (List ℚ × List ℚ)) → List (Option PyFloat)
  | [] => []
  | e :: es =>
    let r := run_val_epoch architecture f s e
    r.1 :: run_val_epochs architecture f r.2 es

end T5AssinModel

namespace T5AssinModel

example : decodeNumber "3.2 points" = PyFloat.num (16/5) := by
  with_unfolding_all decide
example : decodeNumber "7.9" = PyFloat.num 5 := by with_unfolding_all decide
example : decodeNumber "0.1" = PyFloat.num 1 := by with_unfolding_all decide
example : decodeNumber "no numbers here" = PyFloat.num 0 := by
  with_unfolding_all decide
example : decodeNumber "approx nan value" = PyFloat.nan := by
  with_unfolding_all decide
example : decodeNumber "-2e-1" = PyFloat.num 1 := by with_unfolding_all decide
example : decodeNumber "Inf" = PyFloat.num 5 := by with_unfolding_all decide
example : t5assin_init "bogus" 1 =
    Except.ok ⟨Backbone.t5Model, some 1, LossFn.mseLoss⟩ := by decide
example : t5assin_init "categoric" 1 = Except.error InitError.assertionError := by
  decide
example : mlp_forward sigmoidHalf cexNLI cexHead [0] = [13] := by
  with_unfolding_all decide

/-! ## Helper lemmas (shared) -/

/-- Feeding 1-D batches never fails, and accumulates the concatenation of all
predictions and of all targets. -/
theorem feed_append (s : PearsonCalculator) (chunks : List (List ℚ × List ℚ)) :
    feed s chunks =
      ⟨s.y_hat ++ (chunks.map Prod.fst).flatten,
       s.y ++ (chunks.map Prod.snd).flatten⟩ := by
  induction chunks generalizing s with
  | nil => simp [feed]
  | cons c rest ih =>
    have hstep : feedStep s c = ⟨s.y_hat ++ c.1, s.y ++ c.2⟩ := by
      simp [feedStep, PearsonCalculator.call, arr1d]
    have : feed s (c :: rest) = feed (feedStep s c) rest := rfl
    rw [this, hstep, ih]
    simp [List.append_assoc]

/-- The token loop computes the clamp of the first parseable token (0 when
none). -/
theorem firstScore_eq_findSome (ws : List (List Char)) :
    firstScore ws =
      match ws.findSome? pyFloatOfToken with
      | some v => clampScore v
      | none => PyFloat.num 0 := by
  induction ws with
  | nil => rfl
  | cons w rest ih =>
    cases hpw : pyFloatOfToken w <;>
      simp [firstScore, List.findSome?_cons, hpw, ih]

/-- With at least 2 accumulated targets, `calculate_pearson` hands the running
sequences to the external reduction and clears the state. -/
theorem calculate_pearson_enough (f : List ℚ → List ℚ → PyFloat)
    (s : PearsonCalculator) (h : ¬ s.y.length < 2) :
    PearsonCalculator.calculate_pearson f s =
      (f s.y s.y_hat, false, PearsonCalculator.empty) := by
  simp [PearsonCalculator.calculate_pearson, h]

/-- In "gen" mode, a validation step leaves the accumulator untouched. -/
theorem gen_steps_id (batches : List (List ℚ × List ℚ)) (s : PearsonCalculator) :
    batches.foldl (fun t b => validation_step_accum "gen" t b.1 b.2) s = s := by
  induction batches generalizing s with
  | nil => rfl
  | cons b rest ih => simp [validation_step_accum, ih]

/-- Bool-valued check that an operation is not an observe call with
mismatched data lengths. -/
def obsLenOk : AccOp → Bool
  | AccOp.obs a b => a.data.length == b.data.length
  | AccOp.calcPearson => true

/-! ## Claims -/

/-- C1 (counterexample): the claim "every observe call whose arguments are not
both one-dimensional and of equal length fails" is false: a call with 3
one-dimensional predictions and 4 one-dimensional targets succeeds — the code
asserts only one-dimensionality, never equal length. -/
theorem claim_C1_counterexample :
    ¬ (∀ (s : PearsonCalculator) (a b : NpArr),
        ¬ (a.shape.length = 1 ∧ b.shape.length = 1 ∧
            a.data.length = b.data.length) →
        PearsonCalculator.call s a b = Except.error s) := by
  intro h
  have h3 := h PearsonCalculator.empty (arr1d [2, 3, 4]) (arr1d [1, 2, 3, 4])
    (by with_unfolding_all decide)
  exact absurd h3 (by with_unfolding_all decide)

/-- C1 (amended): an observe call fails exactly when one of the two arrays is
not one-dimensional, and the assertions fire before any append, so failure
leaves the state unchanged; equal lengths are NOT checked — two 1-D arrays of
any lengths (e.g. 3 predictions and 4 targets) are both appended. -/
theorem claim_C1_amended (s : PearsonCalculator) (a b : NpArr) :
    (¬ (a.shape.length = 1 ∧ b.shape.length = 1) →
      PearsonCalculator.call s a b = Except.error s) ∧
    (a.shape.length = 1 → b.shape.length = 1 →
      PearsonCalculator.call s a b =
        Except.ok ⟨s.y_hat ++ a.data, s.y ++ b.data⟩) := by
  refine ⟨fun h => ?_, fun h1 h2 => ?_⟩
  · by_cases h1 : a.shape.length = 1
    · have h2 : ¬ b.shape.length = 1 := fun hb => h ⟨h1, hb⟩
      simp [PearsonCalculator.call, h1, h2]
    · simp [PearsonCalculator.call, h1]
  · simp [PearsonCalculator.call, h1, h2]

/-- C1 (witness): both halves of the amended claim at concrete inputs — a 2-D
predictions array fails leaving the empty state, and a 3-vs-4 call succeeds
and appends both. -/
theorem claim_C1_witness :
    PearsonCalculator.call PearsonCalculator.empty
        (NpArr.mk [2, 2] [1, 2, 3, 4]) (arr1d [1]) =
      Except.error PearsonCalculator.empty ∧
    PearsonCalculator.call PearsonCalculator.empty
        (arr1d [2, 3, 4]) (arr1d [1, 2, 3, 4]) =
      Except.ok ⟨[2, 3, 4], [1, 2, 3, 4]⟩ := by
  constructor
  · exact (claim_C1_amended PearsonCalculator.empty
      (NpArr.mk [2, 2] [1, 2, 3, 4]) (arr1d [1])).1 (by decide)
  · have h := (claim_C1_amended PearsonCalculator.empty
      (arr1d [2, 3, 4]) (arr1d [1, 2, 3, 4])).2 (by decide) (by decide)
    simpa [PearsonCalculator.empty] using h

/-- C2 (counterexample): the claim "every architecture string outside the
dispatched modes fails construction" is false: "bogus" (not an enumerated
mode) constructs successfully, silently receiving the default similarity
configuration. -/
theorem claim_C2_counterexample :
    ¬ (∀ (architecture : String) (nout : Int),
        architecture ∉ (["mlp", "categoric", "gen", "categoric_gen"] : List String) →
        ∃ e, t5assin_init architecture nout = Except.error e) := by
  intro h
  obtain ⟨e, he⟩ := h "bogus" 1 (by decide)
  cases e
  exact absurd he (by decide)

/-- C2 (amended): `T5ASSIN.__init__` performs no architecture-string
validation: every string outside {"mlp", "categoric", "gen", "categoric_gen"}
silently yields the default similarity configuration — `T5Model` backbone,
`Linear(D, 1)` head and MSE loss — with no construction-time error. -/
theorem claim_C2_amended (architecture : String) (nout : Int)
    (h : architecture ∉ (["mlp", "categoric", "gen", "categoric_gen"] : List String)) :
    t5assin_init architecture nout =
      Except.ok ⟨Backbone.t5Model, some 1, LossFn.mseLoss⟩ := by
  simp only [List.mem_cons, List.not_mem_nil, or_false, not_or] at h
  obtain ⟨h1, h2, h3, h4⟩ := h
  simp [t5assin_init, h1, h2, h3, h4]

/-- C2 (witness): the amended claim instantiated at "bogus". -/
theorem claim_C2_witness :
    t5assin_init "bogus" 7 =
      Except.ok ⟨Backbone.t5Model, some 1, LossFn.mseLoss⟩ :=
  claim_C2_amended "bogus" 7 (by decide)

/-- C8: constructing in "categoric" mode with `nout = 1` fails the
construction-time assert (before any training step), while `nout = 3`
succeeds with a 3-way linear head and cross-entropy loss. -/
theorem claim_C8_categoric_nout :
    t5assin_init "categoric" 1 = Except.error InitError.assertionError ∧
    t5assin_init "categoric" 3 =
      Except.ok ⟨Backbone.t5Model, some 3, LossFn.crossEntropyLoss⟩ :=
  ⟨by decide, by decide⟩

/-- C3 (counterexample): the claim "in mlp mode every forward output lies in
[1, 5]" is false for every sigmoid respecting the range property: with
`NONLinearInput = Linear(1,1)` (weight 1, bias 0), head weight 1 and bias 10,
input `[0]`, the forward output is `[13]` under `sigmoidHalf`, because the
`Linear(D, 1)` head (line 162) is applied AFTER the `1 + 4·sigmoid`
squashing. -/
theorem claim_C3_counterexample :
    ¬ (∀ (σ : ℚ → ℚ), SigmoidLike σ → ∀ (p head : LinearParams) (x : List ℚ),
        ∀ v ∈ mlp_forward σ p head x, 1 ≤ v ∧ v ≤ 5) := by
  intro h
  have hσ : SigmoidLike sigmoidHalf := fun t => by norm_num [sigmoidHalf]
  have hv : mlp_forward sigmoidHalf cexNLI cexHead [0] = [13] := by
    with_unfolding_all decide
  have h13 : (13 : ℚ) ∈ mlp_forward sigmoidHalf cexNLI cexHead [0] := by
    rw [hv]; exact List.mem_singleton.mpr rfl
  have hle := (h sigmoidHalf hσ cexNLI cexHead [0] 13 h13).2
  norm_num at hle

/-- C3 (amended): every coordinate of the `NONLinearInput` output is
`1 + 4·σ(net(x))` and lies in [1, 5]; the "mlp" forward pass is the
unconstrained `Linear(D, 1)` head applied to that vector, so the squashing
happens before — not after — the final linear projection, and the resulting
scalar itself is not confined to [1, 5]. -/
theorem claim_C3_amended (σ : ℚ → ℚ) (hσ : SigmoidLike σ)
    (p head : LinearParams) (x : List ℚ) :
    (∀ v ∈ nonLinearForward σ p x, 1 ≤ v ∧ v ≤ 5) ∧
    mlp_forward σ p head x = linearForward head (nonLinearForward σ p x) := by
  refine ⟨fun v hv => ?_, rfl⟩
  simp only [nonLinearForward, List.mem_map] at hv
  obtain ⟨t, ht, rfl⟩ := hv
  constructor <;> nlinarith [(hσ t).1, (hσ t).2]

/-- C3 (witness): the amended claim at the counterexample weights and input. -/
theorem claim_C3_witness :
    (∀ v ∈ nonLinearForward sigmoidHalf cexNLI [0], 1 ≤ v ∧ v ≤ 5) ∧
    mlp_forward sigmoidHalf cexNLI cexHead [0] =
      linearForward cexHead (nonLinearForward sigmoidHalf cexNLI [0]) :=
  claim_C3_amended sigmoidHalf (fun t => by norm_num [sigmoidHalf])
    cexNLI cexHead [0]

/-- C4: the decoding loop splits on whitespace, scans left-to-right, and
returns the clamp of the first float-parseable token (0.0 when none parses) —
the loop agrees with the spec-worded decoder on every string, and produces
3.2, 5.0, 1.0 and 0.0 on the spec's four examples. -/
theorem claim_C4_decode :
    (∀ s, decodeNumber s = decodeSpec s) ∧
    decodeNumber "3.2 points" = PyFloat.num (16 / 5) ∧
    decodeNumber "7.9" = PyFloat.num 5 ∧
    decodeNumber "0.1" = PyFloat.num 1 ∧
    decodeNumber "no numbers here" = PyFloat.num 0 := by
  refine ⟨fun s => ?_, ?_, ?_, ?_, ?_⟩
  · simpa [decodeNumber, decodeSpec] using firstScore_eq_findSome (pySplit s)
  · with_unfolding_all decide
  · with_unfolding_all decide
  · with_unfolding_all decide
  · with_unfolding_all decide

/-- C5: the accumulator stores exactly the concatenations of everything
observed, so `calculate_pearson` hands the external reduction the full
concatenated arrays and agrees with a single observe call on the
concatenation. -/
theorem claim_C5_concat (f : List ℚ → List ℚ → PyFloat)
    (chunks : List (List ℚ × List ℚ))
    (_hlen : ∀ p ∈ chunks, p.1.length = p.2.length)
    (h2 : 2 ≤ ((chunks.map Prod.snd).flatten).length) :
    (PearsonCalculator.calculate_pearson f (feed PearsonCalculator.empty chunks)).1 =
      f (chunks.map Prod.snd).flatten (chunks.map Prod.fst).flatten ∧
    (PearsonCalculator.calculate_pearson f (feed PearsonCalculator.empty chunks)).1 =
      (PearsonCalculator.calculate_pearson f
        (feed PearsonCalculator.empty
          [((chunks.map Prod.fst).flatten, (chunks.map Prod.snd).flatten)])).1 := by
  have hfe := feed_append PearsonCalculator.empty chunks
  have hfe1 := feed_append PearsonCalculator.empty
    [((chunks.map Prod.fst).flatten, (chunks.map Prod.snd).flatten)]
  rw [hfe, hfe1]
  simp only [PearsonCalculator.empty, List.nil_append, List.map_cons,
    List.map_nil, List.flatten_cons, List.flatten_nil, List.append_nil]
  have hnot : ¬ ((chunks.map Prod.snd).flatten).length < 2 := Nat.not_lt.mpr h2
  rw [calculate_pearson_enough f
    ⟨(chunks.map Prod.fst).flatten, (chunks.map Prod.snd).flatten⟩ hnot]
  exact ⟨rfl, trivial⟩

/-- C5 (witness): the spec's end-to-end scenario — predictions
[2.0, 3.0] then [4.0], targets [2.1, 2.9] then [4.2] — instantiating the
parametric reduction with `fDemo`. -/
theorem claim_C5_witness :
    (PearsonCalculator.calculate_pearson fDemo
        (feed PearsonCalculator.empty
          [([2, 3], [21/10, 29/10]), ([4], [42/10])])).1 =
      fDemo ((([([2, 3], [21/10, 29/10]), ([4], [42/10])] :
          List (List ℚ × List ℚ)).map Prod.snd).flatten)
        ((([([2, 3], [21/10, 29/10]), ([4], [42/10])] :
          List (List ℚ × List ℚ)).map Prod.fst).flatten) ∧
    (PearsonCalculator.calculate_pearson fDemo
        (feed PearsonCalculator.empty
          [([2, 3], [21/10, 29/10]), ([4], [42/10])])).1 =
      (PearsonCalculator.calculate_pearson fDemo
        (feed PearsonCalculator.empty
          [(((([([2, 3], [21/10, 29/10]), ([4], [42/10])] :
              List (List ℚ × List ℚ)).map Prod.fst).flatten),
            ((([([2, 3], [21/10, 29/10]), ([4], [42/10])] :
              List (List ℚ × List ℚ)).map Prod.snd).flatten))])).1 :=
  claim_C5_concat fDemo [([2, 3], [21/10, 29/10]), ([4], [42/10])]
    (by with_unfolding_all decide) (by with_unfolding_all decide)

/-- C6: with fewer than 2 accumulated observations `calculate_pearson`
returns NaN and logs the warning; on every call it clears both sequences, so
an immediate second call with no new observations returns NaN again. -/
theorem claim_C6_reset (f : List ℚ → List ℚ → PyFloat) (s : PearsonCalculator) :
    (s.y.length < 2 →
      (PearsonCalculator.calculate_pearson f s).1 = PyFloat.nan ∧
      (PearsonCalculator.calculate_pearson f s).2.1 = true) ∧
    (PearsonCalculator.calculate_pearson f s).2.2 = PearsonCalculator.empty ∧
    (PearsonCalculator.calculate_pearson f
        ((PearsonCalculator.calculate_pearson f s).2.2)).1 = PyFloat.nan := by
  refine ⟨fun h => ?_, ?_, ?_⟩
  · simp [PearsonCalculator.calculate_pearson, h]
  · by_cases h : s.y.length < 2 <;>
      simp [PearsonCalculator.calculate_pearson, h]
  · by_cases h : s.y.length < 2 <;>
      simp [PearsonCalculator.calculate_pearson, PearsonCalculator.empty, h]

/-- C6 (witness): a single-observation accumulator yields NaN with the
warning, is left empty, and yields NaN again on the immediate second call. -/
theorem claim_C6_witness :
    (PearsonCalculator.calculate_pearson fDemo ⟨[4], [5]⟩).1 = PyFloat.nan ∧
    (PearsonCalculator.calculate_pearson fDemo ⟨[4], [5]⟩).2.1 = true ∧
    (PearsonCalculator.calculate_pearson fDemo ⟨[4], [5]⟩).2.2 =
      PearsonCalculator.empty ∧
    (PearsonCalculator.calculate_pearson fDemo
        ((PearsonCalculator.calculate_pearson fDemo ⟨[4], [5]⟩).2.2)).1 =
      PyFloat.nan :=
  ⟨((claim_C6_reset fDemo ⟨[4], [5]⟩).1 (by decide)).1,
   ((claim_C6_reset fDemo ⟨[4], [5]⟩).1 (by decide)).2,
   (claim_C6_reset fDemo ⟨[4], [5]⟩).2.1,
   (claim_C6_reset fDemo ⟨[4], [5]⟩).2.2⟩

/-- C7 (counterexample): the claim "after any sequence of operations the two
running sequences have equal length" is false: one observe call with 3
one-dimensional predictions and 4 one-dimensional targets passes the asserts
and leaves sequences of lengths 3 and 4. -/
theorem claim_C7_counterexample :
    ¬ (∀ (f : List ℚ → List ℚ → PyFloat) (ops : List AccOp),
        (runOps f PearsonCalculator.empty ops).y_hat.length =
          (runOps f PearsonCalculator.empty ops).y.length) := by
  intro h
  have h1 := h fDemo [AccOp.obs (arr1d [2, 3, 4]) (arr1d [1, 2, 3, 4])]
  exact absurd h1 (by with_unfolding_all decide)

/-- C7 (amended): the equal-length invariant holds provided every observe
call in the history passes equal-length data (as the validation loop does,
feeding same-batch arrays): failed observes leave the state unchanged and
`calculate_pearson` clears both sequences, so equal lengths are preserved. -/
theorem claim_C7_amended (f : List ℚ → List ℚ → PyFloat)
    (s : PearsonCalculator) (ops : List AccOp)
    (hs : s.y_hat.length = s.y.length)
    (hops : ∀ op ∈ ops, obsLenOk op = true) :
    (runOps f s ops).y_hat.length = (runOps f s ops).y.length := by
  induction ops generalizing s with
  | nil => exact hs
  | cons op rest ih =>
    have hstep : (runOp f s op).y_hat.length = (runOp f s op).y.length := by
      cases op with
      | obs a b =>
        have hab : a.data.length = b.data.length := by
          have := hops (AccOp.obs a b) (List.mem_cons_self _ _)
          simpa [obsLenOk] using this
        by_cases h1 : a.shape.length = 1
        · by_cases h2 : b.shape.length = 1
          · simp [runOp, PearsonCalculator.call, h1, h2, hs, hab]
          · simp [runOp, PearsonCalculator.call, h1, h2, hs]
        · simp [runOp, PearsonCalculator.call, h1, hs]
      | calcPearson =>
        by_cases h : s.y.length < 2 <;>
          simp [runOp, PearsonCalculator.calculate_pearson,
            PearsonCalculator.empty, h]
    exact ih (runOp f s op) hstep
      fun op' hmem => hops op' (List.mem_cons_of_mem _ hmem)

/-- C7 (witness): the amended invariant on a concrete history mixing
equal-length observes, a reset, and a failing (2-D) observe. -/
theorem claim_C7_witness :
    (runOps fDemo PearsonCalculator.empty
        [AccOp.obs (arr1d [2, 3]) (arr1d [1, 2]), AccOp.calcPearson,
         AccOp.obs (NpArr.mk [2, 2] [1, 2, 3, 4]) (arr1d [5, 6, 7, 8]),
         AccOp.obs (arr1d [5]) (arr1d [7])]).y_hat.length =
      (runOps fDemo PearsonCalculator.empty
        [AccOp.obs (arr1d [2, 3]) (arr1d [1, 2]), AccOp.calcPearson,
         AccOp.obs (NpArr.mk [2, 2] [1, 2, 3, 4]) (arr1d [5, 6, 7, 8]),
         AccOp.obs (arr1d [5]) (arr1d [7])]).y.length :=
  claim_C7_amended fDemo PearsonCalculator.empty
    [AccOp.obs (arr1d [2, 3]) (arr1d [1, 2]), AccOp.calcPearson,
     AccOp.obs (NpArr.mk [2, 2] [1, 2, 3, 4]) (arr1d [5, 6, 7, 8]),
     AccOp.obs (arr1d [5]) (arr1d [7])]
    (by decide) (by with_unfolding_all decide)

/-- C9: Python's `float` accepts the token "nan"; both clamp comparisons are
false on NaN, so decoding a text whose first parseable token is "nan" yields
NaN — neither the 0.0 fallback nor any numeric value (in particular nothing
in [1, 5]). -/
theorem claim_C9_nan :
    pyFloatOfToken ['n', 'a', 'n'] = some PyFloat.nan ∧
    pyGtFive PyFloat.nan = false ∧
    pyLtOne PyFloat.nan = false ∧
    decodeNumber "approx nan value" = PyFloat.nan ∧
    (∀ q : ℚ, PyFloat.nan ≠ PyFloat.num q) := by
  refine ⟨by decide, rfl, rfl, by with_unfolding_all decide, fun q h => ?_⟩
  cases h

/-- C10: in "gen" mode validation steps never feed the Pearson accumulator,
while the validation epoch end still calls `calculate_pearson` on it — so
over any run of validation epochs with any batches, the reported epoch
Pearson metric is NaN for every epoch. -/
theorem claim_C10_gen_pearson_nan (f : List ℚ → List ℚ → PyFloat)
    (epochs : List (List (List ℚ × List ℚ))) :
    run_val_epochs "gen" f PearsonCalculator.empty epochs =
      List.replicate epochs.length (some PyFloat.nan) := by
  induction epochs with
  | nil => rfl
  | cons e es ih =>
    have hstep := gen_steps_id e PearsonCalculator.empty
    have hval : validation_epoch_end_pearson "gen" f PearsonCalculator.empty =
        (some PyFloat.nan, PearsonCalculator.empty) := by
      simp [validation_epoch_end_pearson, PearsonCalculator.calculate_pearson,
        PearsonCalculator.empty]
    simp only [run_val_epochs, run_val_epoch]
    rw [hstep, hval, ih]
    simp [List.replicate]

end T5AssinModel
